import Mathlib

/-!
Shallow embedding of the real-time narrative core
(`src/realtime-narrative/`: `playback.py`, `selector.py`, `orchestrator.py`,
`manifest_loader.py`) and proofs about its claims.

Conventions of the embedding:
* Python floats on the telemetry path are modelled as rationals (the claims
  only involve exact small arithmetic).
* IPC / LLM / RNG effects are modelled as explicit oracle inputs; each
  function of the source becomes a pure Lean function of its state and the
  oracle responses it consumes.
-/

namespace VideoGen

/-! ## List helper: Python `l[-n:]` -/

/-- Python slice `l[-n:]`: the last `n` elements (all of `l` when it is
shorter than `n`). -/
def lastN {α : Type} (n : ℕ) (l : List α) : List α :=
  l.drop (l.length - n)

theorem lastN_length {α : Type} (n : ℕ) (l : List α) :
    (lastN n l).length = min n l.length := by
  simp [lastN]
  omega

theorem lastN_length_le {α : Type} (n : ℕ) (l : List α) :
    (lastN n l).length ≤ n := by
  rw [lastN_length]
  omega

theorem lastN_of_le {α : Type} {n : ℕ} {l : List α} (h : l.length ≤ n) :
    lastN n l = l := by
  unfold lastN
  have : l.length - n = 0 := by omega
  rw [this, List.drop_zero]

theorem lastN_append_of_le {α : Type} {n : ℕ} (l₁ : List α) {l₂ : List α}
    (h : n ≤ l₂.length) : lastN n (l₁ ++ l₂) = lastN n l₂ := by
  unfold lastN
  rw [List.drop_append_eq_append_drop]
  have h1 : l₁.length ≤ (l₁ ++ l₂).length - n := by
    simp
    omega
  rw [List.drop_eq_nil_of_le h1, List.nil_append]
  congr 1
  simp
  omega

theorem lastN_lastN_append {α : Type} (n : ℕ) (l l₂ : List α) :
    lastN n (lastN n l ++ l₂) = lastN n (l ++ l₂) := by
  by_cases h : l.length ≤ n
  · rw [lastN_of_le h]
  · have hlen : n ≤ (lastN n l ++ l₂).length := by
      rw [List.length_append, lastN_length]
      omega
    conv_rhs => rw [← List.take_append_drop (l.length - n) l]
    rw [List.append_assoc]
    exact (lastN_append_of_le _ hlen).symm

theorem lastN_concat_getLast? {α : Type} {n : ℕ} (hn : 0 < n)
    (xs : List α) (e : α) : (lastN n (xs ++ [e])).getLast? = some e := by
  have hne : lastN n (xs ++ [e]) ≠ [] := by
    intro h
    have := lastN_length n (xs ++ [e])
    rw [h] at this
    simp at this
    omega
  have hdecomp : (xs ++ [e]).take ((xs ++ [e]).length - n) ++ lastN n (xs ++ [e]) =
      xs ++ [e] := List.take_append_drop _ _
  have h1 : (xs ++ [e]).getLast? = (lastN n (xs ++ [e])).getLast? := by
    conv_lhs => rw [← hdecomp]
    exact List.getLast?_append_of_ne_nil _ hne
  rw [← h1]
  exact List.getLast?_concat xs

/-! ## Playback Engine Client (`playback.py`) -/

/-- Status snapshot (dataclass `PlaybackStatus`, playback.py:17-26). -/
structure PlaybackStatus where
  playing : Bool := false
  filename : Option String := none
  position : ℚ := 0
  duration : ℚ := 0
  playlist_count : ℤ := 0
  playlist_pos : ℤ := 0
  paused : Bool := false
  deriving DecidableEq

/-- Outcomes of the `_get_property` calls `get_status` / `get_playlist`
issue over IPC (playback.py:147-152): each property either yields a value or
`None` (failed command or error envelope).  Playlist entries are opaque to
the client (only their number is read), so they are modelled as strings. -/
structure PropEnv where
  idleActive : Option Bool := none
  pause : Option Bool := none
  filename : Option String := none
  timePos : Option ℚ := none
  duration : Option ℚ := none
  playlistCount : Option ℤ := none
  playlistPos : Option ℤ := none
  playlist : Option (List String) := none
  deriving DecidableEq

/-- `PlaybackController.get_status` (playback.py:210-222).  Python's
`x or default` on these property values coincides with `Option.getD`
(`None` and the zero value both map to the default); note `playing` is the
negation of the defaulted `idle-active` value. -/
def get_status (env : PropEnv) : PlaybackStatus :=
  { playing := !(env.idleActive.getD false)
    paused := env.pause.getD false
    filename := env.filename
    position := env.timePos.getD 0
    duration := env.duration.getD 0
    playlist_count := env.playlistCount.getD 0
    playlist_pos := env.playlistPos.getD 0 }

/-- `PlaybackController.get_playlist` (playback.py:224-227). -/
def get_playlist (env : PropEnv) : List String :=
  env.playlist.getD []

/-- `PlaybackController.get_remaining_time` (playback.py:229-234). -/
def get_remaining_time (env : PropEnv) : ℚ :=
  let status := get_status env
  if status.duration > 0 then status.duration - status.position else 0

/-- `PlaybackController.get_queue_duration` (playback.py:236-249). -/
def get_queue_duration (env : PropEnv) : ℚ :=
  let status := get_status env
  let playlist := get_playlist env
  let remaining := get_remaining_time env
  remaining + ((((playlist.length : ℤ) - status.playlist_pos - 1 : ℤ) : ℚ)) * 8

/-! ### The `_send_command` receive loop (playback.py:128-140)

A blocking `recv` on the socket either returns a chunk of bytes (empty when
the peer has closed the connection) or raises `socket.timeout` after the
2-second deadline.  The loop appends chunks until a newline appears. -/

/-- One outcome of `self._socket.recv(4096)`. -/
inductive RecvResult where
  | chunk (s : String)
  | timedOut
  deriving DecidableEq

/-- Whether the accumulated response holds a newline (`b"\n" in response`). -/
def hasNewline (s : String) : Bool :=
  s.toList.any (fun c => c = Char.ofNat 10)

/-- The read loop of `_send_command` (playback.py:133-137), instrumented
with fuel: `recv k` is the result of the `k`-th read.  Result `none` means
the loop is still running after `fuel` iterations; `some none` is the
except-path of playback.py:142-145 (a `socket.timeout`, a subclass of
`socket.error`, is caught and the call returns `None`); `some (some r)` is
a newline-terminated response `r`. -/
def readLoop (recv : ℕ → RecvResult) : ℕ → ℕ → String → Option (Option String)
  | _, 0, _ => none
  | k, fuel + 1, acc =>
    match recv k with
    | RecvResult.timedOut => some none
    | RecvResult.chunk c =>
      if hasNewline (acc ++ c) then some (some (acc ++ c))
      else readLoop recv (k + 1) fuel (acc ++ c)

/-- The receive stream of a connection closed by the peer: every `recv`
immediately returns an empty chunk (EOF), never raising a timeout. -/
def allEmptyRecv : ℕ → RecvResult := fun _ => RecvResult.chunk ""

/-! ## Manifest (`manifest_loader.py`) -/

/-- Clip metadata (`manifest_loader.Clip`), restricted to the fields the
core's claims read: identifier, description, mood, motion intensity and
duration.  The remaining fields (resolution, tags, audio flags, ...) are
carried opaquely by the source and never influence the claims below. -/
structure Clip where
  filename : String
  duration : ℚ := 0
  description : String := ""
  mood : String := ""
  motion_intensity : String := ""
  deriving DecidableEq

/-- `ManifestLoader.get_clip` (manifest_loader.py:133-135): lookup in the
dict `{c.filename: c for c in clips}`, in which a later clip with the same
filename overwrites an earlier one — hence the search over the reversed
list. -/
def getClip (clips : List Clip) (fn : String) : Option Clip :=
  clips.reverse.find? (fun c => c.filename = fn)

/-! ## Narrative State Store (`selector.py`, `NarrativeState`) -/

/-- One entry of `recently_played` (selector.py:30-35).  `played_at`
(`datetime.now().isoformat()`) is an input: the clock is external. -/
structure PlayedEntry where
  filename : String
  description : String
  mood : String
  played_at : String
  deriving DecidableEq

/-- One entry of `feedback_history` (selector.py:45-48); the source's key
`"at"` is a Lean keyword, rendered here as `atTime`. -/
structure FeedbackEntry where
  text : String
  atTime : String
  deriving DecidableEq

/-- `NarrativeState` (selector.py:18-26) with its dataclass defaults. -/
structure NarrativeState where
  direction : String := "open exploration"
  coherence_level : ℚ := 3 / 10
  recently_played : List PlayedEntry := []
  current_queue : List String := []
  feedback_history : List FeedbackEntry := []
  mood_trajectory : List String := []
  deriving DecidableEq

/-- The history entry `add_played` builds for a clip (selector.py:30-35). -/
def playedEntry (clip : Clip) (now : String) : PlayedEntry :=
  { filename := clip.filename
    description := clip.description.take 150
    mood := clip.mood
    played_at := now }

/-- `NarrativeState.add_played` (selector.py:28-41): append, then keep the
last 10 history entries and the last 15 moods. -/
def NarrativeState.add_played (st : NarrativeState) (clip : Clip) (now : String) :
    NarrativeState :=
  { st with
    recently_played := lastN 10 (st.recently_played ++ [playedEntry clip now])
    mood_trajectory := lastN 15 (st.mood_trajectory ++ [clip.mood]) }

/-- `NarrativeState.add_feedback` (selector.py:43-50): append, keep last 10. -/
def NarrativeState.add_feedback (st : NarrativeState) (text now : String) :
    NarrativeState :=
  { st with
    feedback_history := lastN 10 (st.feedback_history ++ [FeedbackEntry.mk text now]) }

/-- `NarrativeState.get_recent_feedback` (selector.py:52-54). -/
def NarrativeState.get_recent_feedback (st : NarrativeState) (n : ℕ) : List String :=
  (lastN n st.feedback_history).map FeedbackEntry.text

/-- The dict returned by `NarrativeState.to_context` (selector.py:56-65). -/
structure Context where
  direction : String
  coherence_level : ℚ
  recently_played : List PlayedEntry
  recent_feedback : List String
  mood_trajectory : List String
  queued_count : ℕ
  deriving DecidableEq

/-- `NarrativeState.to_context` (selector.py:56-65).  Note `queued_count`
reads `self.current_queue`. -/
def NarrativeState.to_context (st : NarrativeState) : Context :=
  { direction := st.direction
    coherence_level := st.coherence_level
    recently_played := lastN 5 st.recently_played
    recent_feedback := st.get_recent_feedback 5
    mood_trajectory := lastN 5 st.mood_trajectory
    queued_count := st.current_queue.length }

/-! ## Selector (`selector.py`, class `Selector`) -/

/-- One entry of the LLM response's `selections` array. -/
structure Selection where
  filename : String
  reasoning : String := ""
  deriving DecidableEq

/-- Result dict of `Selector.select` as read by the orchestrator: an
optional `"error"` key and a `"selections"` list. -/
structure SelectResult where
  error : Option String := none
  selections : List Selection := []
  deriving DecidableEq

/-- The validation pass of `Selector.select` (selector.py:196-204): keep
the selections whose filename resolves in the manifest. -/
def validSelections (manifest : List Clip) (sels : List Selection) : List Selection :=
  sels.filter (fun s => (getClip manifest s.filename).isSome)

/-- The dropped-candidate warnings of the same pass (selector.py:202): one
log line per selection whose filename is unknown to the manifest. -/
def droppedSelections (manifest : List Clip) (sels : List Selection) : List String :=
  (sels.filter (fun s => (getClip manifest s.filename).isNone)).map Selection.filename

/-- `Selector.select` (selector.py:144-205).  The LLM round trip is an
oracle input: `llm = none` models a response from which no JSON could be
extracted (selector.py:184-194), `llm = some sels` the parsed `selections`
array.  Returned alongside the result dict is the list of
dropped-candidate warnings printed during validation.  Candidate sampling
(`_smart_sample`) only shapes the prompt shown to the LLM and does not
affect this function's result. -/
def Selector.select (manifest : List Clip) (exclude : List String)
    (llm : Option (List Selection)) : SelectResult × List String :=
  let available := manifest.filter (fun c => ¬ exclude.contains c.filename)
  if available.isEmpty then
    ({ error := some "No available clips", selections := [] }, [])
  else
    match llm with
    | none => ({ error := some "Failed to parse LLM response", selections := [] }, [])
    | some sels =>
      ({ error := none, selections := validSelections manifest sels },
       droppedSelections manifest sels)

/-- `Selector.mark_played` (selector.py:266-270). -/
def Selector.mark_played (manifest : List Clip) (st : NarrativeState)
    (fn now : String) : NarrativeState :=
  match getClip manifest fn with
  | some clip => st.add_played clip now
  | none => st

/-- Substring test on character lists (Python `pat in s` for strings). -/
def isPrefOf : List Char → List Char → Bool
  | [], _ => true
  | _ :: _, [] => false
  | p :: ps, c :: cs => (p = c) && isPrefOf ps cs

/-- Substring test, continued: does `pat` occur inside `l`. -/
def subOccurs (pat : List Char) : List Char → Bool
  | [] => pat.isEmpty
  | c :: rest => isPrefOf pat (c :: rest) || subOccurs pat rest

/-- Python `pat in s` for strings. -/
def strContains (s pat : String) : Bool :=
  subOccurs pat.toList s.toList

/-- Python `s.lower()`, character by character (kernel-reducible variant
of `String.toLower`; the manifest's motion values are plain ASCII). -/
def strLower (s : String) : String :=
  String.mk (s.toList.map Char.toLower)

/-- The keyword → direction table of `Selector.process_feedback`
(selector.py:246-258), in the source's (insertion) order. -/
def directionKeywords : List (String × String) :=
  [("darker", "exploring darker themes"),
   ("lighter", "moving toward lighter, brighter content"),
   ("faster", "increasing energy and pace"),
   ("slower", "slowing down, contemplative"),
   ("abstract", "embracing abstraction and surrealism"),
   ("narrative", "building toward clearer narrative"),
   ("emotional", "focusing on emotional resonance"),
   ("violent", "exploring conflict and tension"),
   ("peaceful", "seeking calm and serenity"),
   ("weird", "leaning into the strange and surreal"),
   ("funny", "looking for humor and levity")]

/-- `Selector.process_feedback` (selector.py:239-264): record the feedback,
then set the direction from the first matching keyword (the loop breaks at
the first hit). -/
def Selector.process_feedback (st : NarrativeState) (feedback now : String) :
    NarrativeState :=
  let st := st.add_feedback feedback now
  let fl := strLower feedback
  match directionKeywords.find? (fun kv => strContains fl kv.1) with
  | some kv => { st with direction := kv.2 }
  | none => st

/-! ### Candidate sampler (`Selector._smart_sample`, selector.py:207-237) -/

/-- Lowered motion intensity of a clip. -/
def motionOf (c : Clip) : String := strLower c.motion_intensity

/-- Membership predicate of the `"low"` bucket. -/
def isLowMotion (c : Clip) : Bool := motionOf c = "low"

/-- Membership predicate of the `"high"` bucket. -/
def isHighMotion (c : Clip) : Bool := motionOf c = "high"

/-- Membership predicate of the `"medium"` bucket: an exact `"medium"` or
any unrecognized value (the `else` branch of selector.py:218-221). -/
def isMedMotion (c : Clip) : Bool := !(isLowMotion c) && !(isHighMotion c)

/-- The `"low"` bucket of `by_motion` (selector.py:215-221). -/
def lowBucket (clips : List Clip) : List Clip := clips.filter isLowMotion

/-- The `"medium"` bucket of `by_motion`, unrecognized values included. -/
def medBucket (clips : List Clip) : List Clip := clips.filter isMedMotion

/-- The `"high"` bucket of `by_motion`. -/
def highBucket (clips : List Clip) : List Clip := clips.filter isHighMotion

/-- Contract of `random.sample(l, k)` (callable only with `k ≤ len(l)`):
`k` elements drawn from `l` without replacement, in an arbitrary order.
Quantifying theorems over every `sample` satisfying this captures "for
every outcome of the random draws". -/
def IsSampler (sample : List Clip → ℕ → List Clip) : Prop :=
  ∀ l k, k ≤ l.length →
    (sample l k).length = k ∧ ∀ x, (sample l k).count x ≤ l.count x

/-- `Selector._smart_sample` (selector.py:207-237) with the random draws
supplied by the `sample` oracle: per-bucket draws of `min (n / 3) |bucket|`
items in dict order low, medium, high, then a uniform draw from the
still-unused pool to fill up to `n`.  The source finally maps
`to_selector_context` over the result; the sampled clips themselves are
returned here, which that projection preserves one-to-one. -/
def smart_sample (sample : List Clip → ℕ → List Clip) (clips : List Clip)
    (n : ℕ) : List Clip :=
  let perGroup := n / 3
  let r1 := sample (lowBucket clips) (min perGroup (lowBucket clips).length)
  let r2 := sample (medBucket clips) (min perGroup (medBucket clips).length)
  let r3 := sample (highBucket clips) (min perGroup (highBucket clips).length)
  let result := r1 ++ r2 ++ r3
  let remaining := n - result.length
  if 0 < remaining then
    let unused := clips.filter (fun c => decide (c ∉ result))
    result ++ sample unused (min remaining unused.length)
  else result

/-! ## Orchestrator (`orchestrator.py`) -/

/-- Mutable orchestrator state (orchestrator.py:72-81): the selector's
narrative state, the queued-filenames list, the running flag, and the two
counters. -/
structure OrchState where
  selState : NarrativeState := {}
  queued_filenames : List String := []
  running : Bool := false
  clips_played : ℕ := 0
  selections_made : ℕ := 0
  deriving DecidableEq

/-- Orchestrator state right after `__init__` (orchestrator.py:51-81). -/
def initOrchState : OrchState := {}

/-- Trace of the observable effects of one fill cycle: the playlist-add
(enqueue) calls issued and the dropped-candidate log lines. -/
structure FillTrace where
  enqueueCalls : List String
  droppedLogs : List String
  deriving DecidableEq

/-- The exclusion list `_fill_buffer` computes (orchestrator.py:156-158):
recently played identifiers followed by the queued ones. -/
def fillExclude (s : OrchState) : List String :=
  (s.selState.recently_played.map PlayedEntry.filename) ++ s.queued_filenames

/-- `Orchestrator._fill_buffer` (orchestrator.py:154-191).  `llm` is the
selection collaborator's parsed reply (as in `Selector.select`); `enqOk f`
is the playback engine's acknowledgement of `add_to_playlist f`.  Each
selection triggers one enqueue call; only acknowledged ones enter
`queued_filenames` (orchestrator.py:176-183). -/
def fill_buffer (manifest : List Clip) (llm : Option (List Selection))
    (enqOk : String → Bool) (s : OrchState) : OrchState × FillTrace :=
  let res := Selector.select manifest (fillExclude s) llm
  match (res.1).error with
  | some _ => (s, { enqueueCalls := [], droppedLogs := res.2 })
  | none =>
    let sels := (res.1).selections
    if sels.isEmpty then (s, { enqueueCalls := [], droppedLogs := res.2 })
    else
      ({ s with
          queued_filenames :=
            s.queued_filenames ++ (sels.map Selection.filename).filter enqOk
          selections_made := s.selections_made + 1 },
       { enqueueCalls := sels.map Selection.filename, droppedLogs := res.2 })

/-- `Orchestrator._mark_current_as_played` (orchestrator.py:193-198):
`list.remove` deletes the first occurrence, modelled by `List.erase`. -/
def mark_current_as_played (manifest : List Clip) (s : OrchState)
    (fn now : String) : OrchState :=
  if fn ∈ s.queued_filenames then
    { s with
      queued_filenames := s.queued_filenames.erase fn
      selState := Selector.mark_played manifest s.selState fn now
      clips_played := s.clips_played + 1 }
  else s

/-- `Orchestrator.start` (orchestrator.py:83-112).  `startMpvOk` and
`connectOk` are the outcomes of `start_mpv` / `connect`; `useDummy` is
`config.use_dummy_playback`.  Returns the boolean result of `start`
together with the state it leaves behind.  Note the seed `_fill_buffer`
call's outcome is not consulted. -/
def Orchestrator.start (startMpvOk connectOk useDummy : Bool)
    (manifest : List Clip) (llm : Option (List Selection))
    (enqOk : String → Bool) (s : OrchState) : Bool × OrchState :=
  if !startMpvOk then (false, s)
  else if !useDummy && !connectOk then (false, s)
  else
    let s1 := (fill_buffer manifest llm enqOk s).1
    (true, { s1 with running := true })

/-! ## Call sequences against the narrative state -/

/-- One mutation of the narrative state: a `add_played` (`recordPlayed`)
or a `add_feedback` (`recordFeedback`) call, with its clock reading. -/
inductive StateOp where
  | played (clip : Clip) (now : String)
  | feedback (text : String) (now : String)

/-- Run a sequence of narrative-state mutations, oldest first. -/
def applyOps (st : NarrativeState) (ops : List StateOp) : NarrativeState :=
  ops.foldl
    (fun st op =>
      match op with
      | StateOp.played c now => st.add_played c now
      | StateOp.feedback t now => st.add_feedback t now)
    st

/-- The history entries a call sequence generates, in call order. -/
def playedProj (ops : List StateOp) : List PlayedEntry :=
  ops.filterMap (fun op =>
    match op with
    | StateOp.played c now => some (playedEntry c now)
    | StateOp.feedback _ _ => none)

/-- The mood entries a call sequence generates, in call order. -/
def moodProj (ops : List StateOp) : List String :=
  ops.filterMap (fun op =>
    match op with
    | StateOp.played c _ => some c.mood
    | StateOp.feedback _ _ => none)

/-- The feedback entries a call sequence generates, in call order. -/
def feedbackProj (ops : List StateOp) : List FeedbackEntry :=
  ops.filterMap (fun op =>
    match op with
    | StateOp.played _ _ => none
    | StateOp.feedback t now => some (FeedbackEntry.mk t now))

/-! ## Orchestrator transition system

Every state mutation the orchestrator performs during a session, with the
external responses (playback engine, selection collaborator, the clock,
operator input) as step parameters. -/

/-- One orchestrator-driven state change (fill cycle, reconciliation,
feedback processing, or a control-surface write; orchestrator.py
`_buffer_loop`, `set_coherence`, `set_direction`). -/
inductive OrchStep (manifest : List Clip) : OrchState → OrchState → Prop where
  | fill (llm : Option (List Selection)) (enqOk : String → Bool) (s : OrchState) :
      OrchStep manifest s (fill_buffer manifest llm enqOk s).1
  | reconcile (fn now : String) (s : OrchState) :
      OrchStep manifest s (mark_current_as_played manifest s fn now)
  | feedback (t now : String) (s : OrchState) :
      OrchStep manifest s { s with selState := Selector.process_feedback s.selState t now }
  | setCoherence (level : ℚ) (s : OrchState) :
      OrchStep manifest s
        { s with selState := { s.selState with coherence_level := max 0 (min 1 level) } }
  | setDirection (d : String) (s : OrchState) :
      OrchStep manifest s { s with selState := { s.selState with direction := d } }
  | setRunning (b : Bool) (s : OrchState) :
      OrchStep manifest s { s with running := b }

/-- States reachable from a fresh orchestrator session. -/
def Reachable (manifest : List Clip) (s : OrchState) : Prop :=
  Relation.ReflTransGen (OrchStep manifest) initOrchState s

/-! ## Concrete fixtures used by witnesses and counterexamples -/

/-- A property environment in which every query fails (dead connection). -/
def deadEnv : PropEnv := {}

/-- Telemetry for the spec's buffer scenario: position 3 of duration 8,
playlist of 3 entries with the current one first. -/
def scenarioEnv : PropEnv :=
  { idleActive := some false
    pause := some false
    filename := some "a.mp4"
    timePos := some 3
    duration := some 8
    playlistCount := some 3
    playlistPos := some 0
    playlist := some ["a.mp4", "b.mp4", "c.mp4"] }

/-- Telemetry with the reported position past the duration. -/
def overrunEnv : PropEnv :=
  { scenarioEnv with timePos := some 10 }

/-- A manifest clip fixture. -/
def clipA : Clip :=
  { filename := "a.mp4", duration := 8, description := "descA", mood := "calm"
    motion_intensity := "low" }

/-- A second manifest clip fixture. -/
def clipB : Clip :=
  { filename := "b.mp4", duration := 8, description := "descB", mood := "tense"
    motion_intensity := "high" }

/-- A two-clip manifest fixture. -/
def manifestAB : List Clip := [clipA, clipB]

/-! ## C1: `get_status` defaults -/

/-- C1 counterexample: on a dead connection (every property query returns
none) `get_status` reports `playing = true`, not `false` as the claim
states — a failed `idle-active` query is folded to "not idle". -/
theorem get_status_dead_playing_not_false :
    ¬ ((get_status deadEnv).playing = false) := by decide

/-- C1 (amended): `get_status` always returns a snapshot and each property
whose query fails defaults to its zero value — except `playing`, which
defaults to `true` because it is the negation of the defaulted
`idle-active` value.  In particular `paused = false`, `filename = none`,
position, duration and the playlist numbers are 0. -/
theorem get_status_defaults (env : PropEnv) :
    (env.idleActive = none → (get_status env).playing = true) ∧
    (env.pause = none → (get_status env).paused = false) ∧
    (env.filename = none → (get_status env).filename = none) ∧
    (env.timePos = none → (get_status env).position = 0) ∧
    (env.duration = none → (get_status env).duration = 0) ∧
    (env.playlistCount = none → (get_status env).playlist_count = 0) ∧
    (env.playlistPos = none → (get_status env).playlist_pos = 0) := by
  refine ⟨?_, ?_, ?_, ?_, ?_, ?_, ?_⟩ <;>
    intro h <;> simp [get_status, h]

/-- C1 witness: the defaults evaluated on the dead connection. -/
theorem get_status_defaults_witness :
    (get_status deadEnv).playing = true ∧ (get_status deadEnv).paused = false ∧
    (get_status deadEnv).filename = none ∧ (get_status deadEnv).position = 0 ∧
    (get_status deadEnv).duration = 0 ∧ (get_status deadEnv).playlist_count = 0 ∧
    (get_status deadEnv).playlist_pos = 0 :=
  have h := get_status_defaults deadEnv
  ⟨h.1 rfl, h.2.1 rfl, h.2.2.1 rfl, h.2.2.2.1 rfl, h.2.2.2.2.1 rfl,
   h.2.2.2.2.2.1 rfl, h.2.2.2.2.2.2 rfl⟩

/-! ## C2: `start` and the seed fill cycle -/

/-- C2 counterexample: a run in which the seed fill cycle selects and
enqueues nothing (the collaborator's reply is unparseable, so zero enqueue
calls are made and the state is unchanged), yet `start` returns success. -/
theorem start_succeeds_despite_failed_seed_fill :
    (fill_buffer manifestAB none (fun _ => true) initOrchState).2.enqueueCalls = [] ∧
    (fill_buffer manifestAB none (fun _ => true) initOrchState).1 = initOrchState ∧
    (Orchestrator.start true true false manifestAB none (fun _ => true)
        initOrchState).1 = true := by
  refine ⟨by decide, rfl, by decide⟩

/-- C2 (amended): `start` reports failure exactly when engine startup
fails, or when IPC connection fails in non-dummy mode; the outcome of the
seed selection cycle (the `llm` reply and the enqueue acknowledgements)
never influences the result. -/
theorem start_result_ignores_seed_fill (startMpvOk connectOk useDummy : Bool)
    (manifest : List Clip) (llm : Option (List Selection))
    (enqOk : String → Bool) (s : OrchState) :
    (Orchestrator.start startMpvOk connectOk useDummy manifest llm enqOk s).1 =
      (startMpvOk && (useDummy || connectOk)) := by
  unfold Orchestrator.start
  cases startMpvOk <;> cases useDummy <;> cases connectOk <;> simp

/-! ## C3: the `_send_command` read loop on a closed peer -/

/-- C3: on a connection closed by the peer every `recv` immediately yields
an empty chunk, no newline ever accumulates and no timeout fires, so the
read loop of `_send_command` never terminates, however many iterations it
is given — the call hangs instead of returning "no response" within the
2-second window. -/
theorem readLoop_eof_never_terminates :
    ∀ fuel k : ℕ, readLoop allEmptyRecv k fuel "" = none := by
  intro fuel
  induction fuel with
  | zero => intro k; rfl
  | succ n ih =>
    intro k
    have h : readLoop allEmptyRecv k (n + 1) "" = readLoop allEmptyRecv (k + 1) n "" := by
      rfl
    rw [h]
    exact ih (k + 1)

/-! ## C4: the buffer estimate -/

/-- C4 counterexample: with the reported position past the duration
(position 10 of duration 8, two not-yet-reached playlist entries) the code
returns −2 + 16 = 14, while the claim's clamped formula gives 0 + 16 = 16:
the remaining time of the current item is not clamped to be non-negative. -/
theorem get_queue_duration_not_clamped :
    get_queue_duration overrunEnv = 14 ∧
    max 0 ((get_status overrunEnv).duration - (get_status overrunEnv).position) +
      (((get_playlist overrunEnv).length : ℤ) -
        (get_status overrunEnv).playlist_pos - 1 : ℤ) * 8 = 16 := by
  constructor
  · norm_num [get_queue_duration, get_remaining_time, get_status, get_playlist,
      overrunEnv, scenarioEnv]
  · norm_num [get_status, get_playlist, overrunEnv, scenarioEnv]

/-- C4 (amended): for every status with a current item and a playlist, the
buffer estimate equals the remaining time of the current item — `duration −
position` when duration is positive (not clamped below zero), 0 otherwise —
plus 8 seconds per not-yet-reached playlist entry; in the scenario of
position 3 of duration 8 with 2 further entries the estimate is exactly
21.0. -/
theorem get_queue_duration_formula (env : PropEnv) (d p : ℚ)
    (pl : List String) (k : ℤ)
    (hd : env.duration = some d) (hp : env.timePos = some p)
    (hpl : env.playlist = some pl) (hk : env.playlistPos = some k) :
    get_queue_duration env =
      (if 0 < d then d - p else 0) + (((pl.length : ℤ) - k - 1 : ℤ) : ℚ) * 8 := by
  simp [get_queue_duration, get_remaining_time, get_status, get_playlist,
    hd, hp, hpl, hk]

/-- C4 witness: the spec's scenario — position 3 of duration 8, two
untouched further entries — evaluates to exactly 21 seconds. -/
theorem get_queue_duration_formula_witness :
    get_queue_duration scenarioEnv = 21 :=
  (get_queue_duration_formula scenarioEnv 8 3 ["a.mp4", "b.mp4", "c.mp4"] 0
      rfl rfl rfl rfl).trans (by norm_num)

/-! ## C5: reconciliation of the currently playing item -/

/-- C5: with queued set `{A, B}` (`A ≠ B`, both valid manifest
identifiers), a poll cycle that observes current identifier `A` leaves the
queued set `{B}`, appends an entry for `A` at the end of
`recently_played`, and increments the played counter by exactly one. -/
theorem reconcile_removes_played (manifest : List Clip) (s : OrchState)
    (A B now : String)
    (hq : s.queued_filenames = [A, B] ∨ s.queued_filenames = [B, A])
    (hAB : A ≠ B)
    (hA : (getClip manifest A).isSome)
    (hB : (getClip manifest B).isSome) :
    (mark_current_as_played manifest s A now).queued_filenames = [B] ∧
    ((mark_current_as_played manifest s A now).selState.recently_played.getLast?).map
        PlayedEntry.filename = some A ∧
    (mark_current_as_played manifest s A now).clips_played = s.clips_played + 1 := by
  have hmem : A ∈ s.queued_filenames := by
    rcases hq with h | h <;> simp [h]
  obtain ⟨clip, hclip⟩ := Option.isSome_iff_exists.mp hA
  have hfn : clip.filename = A := by
    have := List.find?_some hclip
    exact of_decide_eq_true this
  unfold mark_current_as_played
  rw [if_pos hmem]
  refine ⟨?_, ?_, rfl⟩
  · rcases hq with h | h <;> rw [h]
    · simp
    · rw [List.erase_cons]
      have : (B == A) = false := by
        simp
        exact Ne.symm hAB
      rw [this]
      simp
  · simp only [Selector.mark_played, hclip, NarrativeState.add_played]
    rw [lastN_concat_getLast? (by norm_num)]
    simp [playedEntry, hfn]

/-- C5 witness: the reconciliation evaluated on the two-clip fixture. -/
theorem reconcile_removes_played_witness :
    (mark_current_as_played manifestAB
        { initOrchState with queued_filenames := ["a.mp4", "b.mp4"] }
        "a.mp4" "t0").queued_filenames = ["b.mp4"] ∧
    ((mark_current_as_played manifestAB
        { initOrchState with queued_filenames := ["a.mp4", "b.mp4"] }
        "a.mp4" "t0").selState.recently_played.getLast?).map
        PlayedEntry.filename = some "a.mp4" ∧
    (mark_current_as_played manifestAB
        { initOrchState with queued_filenames := ["a.mp4", "b.mp4"] }
        "a.mp4" "t0").clips_played =
      ({ initOrchState with queued_filenames := ["a.mp4", "b.mp4"] } :
        OrchState).clips_played + 1 :=
  reconcile_removes_played manifestAB
    { initOrchState with queued_filenames := ["a.mp4", "b.mp4"] }
    "a.mp4" "b.mp4" "t0" (Or.inl rfl) (by decide) (by decide) (by decide)

/-! ## C6: bounded histories -/

/-- Initial narrative state (the dataclass defaults, selector.py:18-26). -/
def initNarrativeState : NarrativeState := {}

/-- Helper for C6: running a call sequence from any state whose histories
are within their caps leaves each history equal to the last-N slice of the
initial history extended by the calls, in call order. -/
theorem applyOps_histories (ops : List StateOp) : ∀ st : NarrativeState,
    st.recently_played.length ≤ 10 → st.mood_trajectory.length ≤ 15 →
    st.feedback_history.length ≤ 10 →
    (applyOps st ops).recently_played =
        lastN 10 (st.recently_played ++ playedProj ops) ∧
    (applyOps st ops).mood_trajectory =
        lastN 15 (st.mood_trajectory ++ moodProj ops) ∧
    (applyOps st ops).feedback_history =
        lastN 10 (st.feedback_history ++ feedbackProj ops) := by
  induction ops with
  | nil =>
    intro st h1 h2 h3
    simp only [applyOps, List.foldl_nil, playedProj, moodProj, feedbackProj,
      List.filterMap_nil, List.append_nil]
    exact ⟨(lastN_of_le h1).symm, (lastN_of_le h2).symm, (lastN_of_le h3).symm⟩
  | cons op ops ih =>
    intro st h1 h2 h3
    cases op with
    | played c now =>
      have happ : applyOps st (StateOp.played c now :: ops) =
          applyOps (st.add_played c now) ops := rfl
      have hb1 : (st.add_played c now).recently_played.length ≤ 10 :=
        lastN_length_le _ _
      have hb2 : (st.add_played c now).mood_trajectory.length ≤ 15 :=
        lastN_length_le _ _
      have hb3 : (st.add_played c now).feedback_history.length ≤ 10 := h3
      obtain ⟨e1, e2, e3⟩ := ih (st.add_played c now) hb1 hb2 hb3
      rw [happ]
      refine ⟨?_, ?_, ?_⟩
      · rw [e1]
        show lastN 10 ((st.add_played c now).recently_played ++ playedProj ops) = _
        rw [show (st.add_played c now).recently_played =
            lastN 10 (st.recently_played ++ [playedEntry c now]) from rfl]
        rw [lastN_lastN_append, List.append_assoc]
        rfl
      · rw [e2]
        show lastN 15 ((st.add_played c now).mood_trajectory ++ moodProj ops) = _
        rw [show (st.add_played c now).mood_trajectory =
            lastN 15 (st.mood_trajectory ++ [c.mood]) from rfl]
        rw [lastN_lastN_append, List.append_assoc]
        rfl
      · rw [e3]
        rfl
    | feedback t now =>
      have happ : applyOps st (StateOp.feedback t now :: ops) =
          applyOps (st.add_feedback t now) ops := rfl
      have hb3 : (st.add_feedback t now).feedback_history.length ≤ 10 :=
        lastN_length_le _ _
      obtain ⟨e1, e2, e3⟩ := ih (st.add_feedback t now) h1 h2 hb3
      rw [happ]
      refine ⟨?_, ?_, ?_⟩
      · rw [e1]
        rfl
      · rw [e2]
        rfl
      · rw [e3]
        show lastN 10 ((st.add_feedback t now).feedback_history ++ feedbackProj ops) = _
        rw [show (st.add_feedback t now).feedback_history =
            lastN 10 (st.feedback_history ++ [FeedbackEntry.mk t now]) from rfl]
        rw [lastN_lastN_append, List.append_assoc]
        rfl

/-- C6: for every sequence of `add_played` / `add_feedback` calls from a
fresh state, `recently_played`, `mood_trajectory` and `feedback_history`
are exactly the most recent 10 / 15 / 10 generated entries in call order
(so the caps are never exceeded, the oldest entries are silently dropped,
and nothing is ever reordered). -/
theorem bounded_history_invariant (ops : List StateOp) :
    (applyOps initNarrativeState ops).recently_played = lastN 10 (playedProj ops) ∧
    (applyOps initNarrativeState ops).mood_trajectory = lastN 15 (moodProj ops) ∧
    (applyOps initNarrativeState ops).feedback_history = lastN 10 (feedbackProj ops) ∧
    (applyOps initNarrativeState ops).recently_played.length ≤ 10 ∧
    (applyOps initNarrativeState ops).mood_trajectory.length ≤ 15 ∧
    (applyOps initNarrativeState ops).feedback_history.length ≤ 10 := by
  obtain ⟨e1, e2, e3⟩ := applyOps_histories ops initNarrativeState
    (by simp [initNarrativeState]) (by simp [initNarrativeState])
    (by simp [initNarrativeState])
  have h1 : (applyOps initNarrativeState ops).recently_played =
      lastN 10 (playedProj ops) := by
    rw [e1]; rfl
  have h2 : (applyOps initNarrativeState ops).mood_trajectory =
      lastN 15 (moodProj ops) := by
    rw [e2]; rfl
  have h3 : (applyOps initNarrativeState ops).feedback_history =
      lastN 10 (feedbackProj ops) := by
    rw [e3]; rfl
  refine ⟨h1, h2, h3, ?_, ?_, ?_⟩
  · rw [h1]; exact lastN_length_le _ _
  · rw [h2]; exact lastN_length_le _ _
  · rw [h3]; exact lastN_length_le _ _

/-! ## Shared facts about the fill cycle -/

/-- The fill cycle on a parsed reply with at least one validated selection:
the full success path of `_fill_buffer` spelled out. -/
theorem fill_buffer_success (manifest : List Clip) (sels : List Selection)
    (enqOk : String → Bool) (s : OrchState)
    (hava : (manifest.filter
        (fun c => ¬ (fillExclude s).contains c.filename)).isEmpty = false)
    (hvalid : (validSelections manifest sels).isEmpty = false) :
    fill_buffer manifest (some sels) enqOk s =
      ({ s with
          queued_filenames := s.queued_filenames ++
            ((validSelections manifest sels).map Selection.filename).filter enqOk
          selections_made := s.selections_made + 1 },
       { enqueueCalls := (validSelections manifest sels).map Selection.filename
         droppedLogs := droppedSelections manifest sels }) := by
  unfold fill_buffer Selector.select
  simp only [hava, Bool.false_eq_true, if_false, hvalid]

/-- Validation keeps every occurrence of a manifest-valid identifier: the
count of such an identifier among the validated selections' filenames
equals its count among the reply's filenames. -/
theorem count_filename_valid (manifest : List Clip) (sels : List Selection)
    (A : String) (hA : (getClip manifest A).isSome) :
    ((validSelections manifest sels).map Selection.filename).count A =
      (sels.map Selection.filename).count A := by
  induction sels with
  | nil => rfl
  | cons x l ih =>
    by_cases hq : (getClip manifest x.filename).isSome = true
    · have hv : validSelections manifest (x :: l) = x :: validSelections manifest l := by
        simp [validSelections, List.filter_cons, hq]
      rw [hv]
      simp only [List.map_cons, List.count_cons]
      rw [show ((validSelections manifest l).map Selection.filename).count A =
          ((l.map Selection.filename).count A) from ih]
    · have hx : x.filename ≠ A := by
        intro hEq
        rw [hEq] at hq
        exact hq hA
      have hv : validSelections manifest (x :: l) = validSelections manifest l := by
        simp [validSelections, List.filter_cons, hq]
      rw [hv, ih]
      simp only [List.map_cons, List.count_cons]
      simp [hx]

/-! ## C7: duplicates in the queued set -/

/-- A selection reply naming the same valid identifier twice. -/
def dupSelections : List Selection :=
  [{ filename := "a.mp4", reasoning := "r1" }, { filename := "a.mp4", reasoning := "r2" }]

/-- C7 counterexample: a single fill cycle whose reply lists the valid
identifier `a.mp4` twice places it into the queued collection twice — the
queued collection can hold an identifier more than once. -/
theorem queued_set_duplicate_counterexample :
    ((fill_buffer manifestAB (some dupSelections) (fun _ => true)
        initOrchState).1.queued_filenames = ["a.mp4", "a.mp4"]) ∧
    ¬ ((fill_buffer manifestAB (some dupSelections) (fun _ => true)
        initOrchState).1.queued_filenames).Nodup := by
  refine ⟨by decide, by decide⟩

/-- C7 (amended): the fill cycle appends every validated, acknowledged
selection to the queued collection without a duplicate check, so a reply
listing a valid identifier twice raises its multiplicity in the queued
collection by two; reconciliation then removes only the first occurrence
of the identifier it observes playing (its count drops by exactly one, so
a duplicate survives). -/
theorem queued_duplicates_and_single_erase (manifest : List Clip)
    (sels : List Selection) (enqOk : String → Bool) (s t : OrchState)
    (A now : String)
    (hava : (manifest.filter
        (fun c => ¬ (fillExclude s).contains c.filename)).isEmpty = false)
    (hA : (getClip manifest A).isSome)
    (hcount : (sels.map Selection.filename).count A = 2)
    (henq : enqOk A = true)
    (ht : A ∈ t.queued_filenames) :
    ((fill_buffer manifest (some sels) enqOk s).1.queued_filenames.count A =
        s.queued_filenames.count A + 2) ∧
    (mark_current_as_played manifest t A now).queued_filenames.count A =
        t.queued_filenames.count A - 1 := by
  have hvc : ((validSelections manifest sels).map Selection.filename).count A = 2 :=
    (count_filename_valid manifest sels A hA).trans hcount
  constructor
  · have hvalid : (validSelections manifest sels).isEmpty = false := by
      cases hv : validSelections manifest sels with
      | nil => rw [hv] at hvc; simp at hvc
      | cons a l => simp
    rw [fill_buffer_success manifest sels enqOk s hava hvalid]
    simp only [List.count_append]
    rw [List.count_filter henq, hvc]
  · unfold mark_current_as_played
    rw [if_pos ht]
    exact List.count_erase_self _ _

/-- C7 witness: the duplicate scenario evaluated on the two-clip fixture,
followed by one reconciliation of `a.mp4` — one copy remains queued. -/
theorem queued_duplicates_witness :
    ((fill_buffer manifestAB (some dupSelections) (fun _ => true)
        initOrchState).1.queued_filenames.count "a.mp4" =
      initOrchState.queued_filenames.count "a.mp4" + 2) ∧
    (mark_current_as_played manifestAB
        (fill_buffer manifestAB (some dupSelections) (fun _ => true)
          initOrchState).1 "a.mp4" "t0").queued_filenames.count "a.mp4" =
      ((fill_buffer manifestAB (some dupSelections) (fun _ => true)
          initOrchState).1).queued_filenames.count "a.mp4" - 1 :=
  queued_duplicates_and_single_erase manifestAB dupSelections (fun _ => true)
    initOrchState
    (fill_buffer manifestAB (some dupSelections) (fun _ => true) initOrchState).1
    "a.mp4" "t0" (by decide) (by decide) (by decide) rfl (by decide)

/-! ## C8: the context's queued-count -/

/-- Every orchestrator-driven step leaves `NarrativeState.current_queue`
untouched: no code path of the orchestrator session writes to it. -/
theorem step_preserves_current_queue (manifest : List Clip) {s t : OrchState}
    (h : OrchStep manifest s t) :
    t.selState.current_queue = s.selState.current_queue := by
  cases h with
  | fill llm enqOk s =>
    show (fill_buffer manifest llm enqOk s).1.selState.current_queue = _
    unfold fill_buffer
    dsimp only
    split
    · rfl
    · split
      · rfl
      · rfl
  | reconcile fn now s =>
    unfold mark_current_as_played
    by_cases hmem : fn ∈ s.queued_filenames
    · rw [if_pos hmem]
      show (Selector.mark_played manifest s.selState fn now).current_queue = _
      unfold Selector.mark_played
      cases getClip manifest fn with
      | some c => rfl
      | none => rfl
    · rw [if_neg hmem]
  | feedback t now s =>
    show (Selector.process_feedback s.selState t now).current_queue = _
    unfold Selector.process_feedback
    dsimp only
    split
    · rfl
    · rfl
  | setCoherence level s => rfl
  | setDirection d s => rfl
  | setRunning b s => rfl

/-- C8 (amended): the `queued_count` of the context snapshot handed to the
selection collaborator is the length of `NarrativeState.current_queue`, a
list the orchestrator never updates — so in every reachable orchestrator
state the snapshot reports 0, regardless of how many identifiers the
scheduler's own `queued_filenames` holds. -/
theorem context_queued_count_zero (manifest : List Clip) (s : OrchState)
    (h : Reachable manifest s) :
    s.selState.to_context.queued_count = 0 := by
  have hcq : s.selState.current_queue = [] := by
    induction h with
    | refl => rfl
    | tail _ hstep ih => rw [step_preserves_current_queue manifest hstep, ih]
  simp [NarrativeState.to_context, hcq]

/-- A reachable state with one queued identifier: one fill cycle that
enqueued `a.mp4`. -/
def oneQueuedState : OrchState :=
  (fill_buffer manifestAB (some [{ filename := "a.mp4", reasoning := "r" }])
    (fun _ => true) initOrchState).1

/-- C8 counterexample: a reachable orchestrator state whose queued set
holds 1 identifier while the context snapshot reports a queued-count of 0. -/
theorem context_queued_count_counterexample :
    Reachable manifestAB oneQueuedState ∧
    oneQueuedState.queued_filenames.length = 1 ∧
    oneQueuedState.selState.to_context.queued_count = 0 := by
  refine ⟨Relation.ReflTransGen.single (OrchStep.fill _ _ _), by decide, rfl⟩

/-- C8 witness: the amended statement evaluated at the same reachable
state. -/
theorem context_queued_count_zero_witness :
    oneQueuedState.selState.to_context.queued_count = 0 :=
  context_queued_count_zero manifestAB oneQueuedState
    (Relation.ReflTransGen.single
      (OrchStep.fill (some [{ filename := "a.mp4", reasoning := "r" }])
        (fun _ => true) initOrchState))

/-! ## C10: one valid and one unknown identifier -/

/-- C10: a fill cycle whose reply holds exactly one manifest-valid
identifier and one unknown identifier (in either order) issues exactly one
enqueue call (for the valid one), logs exactly one dropped candidate (the
unknown one), appends only the valid identifier to the queued set — the
unknown one is never enqueued nor queued — and the cycle completes
normally (the selection counter advances). -/
theorem fill_one_valid_one_unknown (manifest : List Clip) (s : OrchState)
    (sA sU : Selection) (sels : List Selection) (enqOk : String → Bool)
    (hsels : sels = [sA, sU] ∨ sels = [sU, sA])
    (hava : (manifest.filter
        (fun c => ¬ (fillExclude s).contains c.filename)).isEmpty = false)
    (hA : (getClip manifest sA.filename).isSome = true)
    (hU : (getClip manifest sU.filename).isNone = true)
    (henq : enqOk sA.filename = true)
    (hUq : sU.filename ∉ s.queued_filenames)
    (hUA : sU.filename ≠ sA.filename) :
    (fill_buffer manifest (some sels) enqOk s).2.enqueueCalls = [sA.filename] ∧
    (fill_buffer manifest (some sels) enqOk s).2.droppedLogs = [sU.filename] ∧
    (fill_buffer manifest (some sels) enqOk s).1.queued_filenames =
      s.queued_filenames ++ [sA.filename] ∧
    sU.filename ∉ (fill_buffer manifest (some sels) enqOk s).1.queued_filenames ∧
    (fill_buffer manifest (some sels) enqOk s).1.selections_made =
      s.selections_made + 1 := by
  have hU' : (getClip manifest sU.filename).isSome = false := by
    cases hgc : getClip manifest sU.filename with
    | some c => rw [hgc] at hU; simp at hU
    | none => rfl
  have hA' : (getClip manifest sA.filename).isNone = false := by
    cases hgc : getClip manifest sA.filename with
    | some c => rfl
    | none => rw [hgc] at hA; simp at hA
  have hval : validSelections manifest sels = [sA] := by
    rcases hsels with h | h <;> subst h <;>
      simp [validSelections, List.filter_cons, hA, hU']
  have hdrop : droppedSelections manifest sels = [sU.filename] := by
    rcases hsels with h | h <;> subst h <;>
      simp [droppedSelections, List.filter_cons, hA', hU]
  have hvalid : (validSelections manifest sels).isEmpty = false := by
    rw [hval]; rfl
  rw [fill_buffer_success manifest sels enqOk s hava hvalid, hval, hdrop]
  refine ⟨rfl, rfl, ?_, ?_, rfl⟩
  · simp [henq]
  · simp [henq, hUq, hUA]

/-- C10 witness: the theorem evaluated on the two-clip fixture with reply
`[a.mp4 (valid), x.mp4 (unknown)]` from a fresh state. -/
theorem fill_one_valid_one_unknown_witness :
    (fill_buffer manifestAB
        (some [{ filename := "a.mp4", reasoning := "ok" },
               { filename := "x.mp4", reasoning := "bad" }])
        (fun _ => true) initOrchState).2.enqueueCalls = ["a.mp4"] ∧
    (fill_buffer manifestAB
        (some [{ filename := "a.mp4", reasoning := "ok" },
               { filename := "x.mp4", reasoning := "bad" }])
        (fun _ => true) initOrchState).2.droppedLogs = ["x.mp4"] ∧
    (fill_buffer manifestAB
        (some [{ filename := "a.mp4", reasoning := "ok" },
               { filename := "x.mp4", reasoning := "bad" }])
        (fun _ => true) initOrchState).1.queued_filenames =
      initOrchState.queued_filenames ++ ["a.mp4"] ∧
    "x.mp4" ∉ (fill_buffer manifestAB
        (some [{ filename := "a.mp4", reasoning := "ok" },
               { filename := "x.mp4", reasoning := "bad" }])
        (fun _ => true) initOrchState).1.queued_filenames ∧
    (fill_buffer manifestAB
        (some [{ filename := "a.mp4", reasoning := "ok" },
               { filename := "x.mp4", reasoning := "bad" }])
        (fun _ => true) initOrchState).1.selections_made =
      initOrchState.selections_made + 1 :=
  fill_one_valid_one_unknown manifestAB initOrchState
    { filename := "a.mp4", reasoning := "ok" }
    { filename := "x.mp4", reasoning := "bad" }
    [{ filename := "a.mp4", reasoning := "ok" },
     { filename := "x.mp4", reasoning := "bad" }]
    (fun _ => true) (Or.inl rfl) (by decide) (by decide) (by decide) rfl
    (by decide) (by decide)

/-! ## C9: the candidate sampler -/

/-- C9: for every outcome of the random draws (every `sample` satisfying
the `random.sample` contract), `_smart_sample` with cap 30 on a pool of
100 distinct items split 40/30/30 across low/medium/high motion intensity
(unrecognized values folded into the medium bucket by construction of
`medBucket`) returns exactly 30 items with no duplicates, and no motion
bucket contributes more than `ceil(30/3) = 10` of them (here the uniform
fill phase contributes nothing: the stratified draws already reach the
cap). -/
theorem smart_sample_spec (sample : List Clip → ℕ → List Clip)
    (hs : IsSampler sample) (clips : List Clip)
    (hnd : clips.Nodup) (hlen : clips.length = 100)
    (hlow : (lowBucket clips).length = 40)
    (hmed : (medBucket clips).length = 30)
    (hhigh : (highBucket clips).length = 30) :
    (smart_sample sample clips 30).length = 30 ∧
    (smart_sample sample clips 30).Nodup ∧
    ((smart_sample sample clips 30).filter isLowMotion).length ≤ 10 ∧
    ((smart_sample sample clips 30).filter isMedMotion).length ≤ 10 ∧
    ((smart_sample sample clips 30).filter isHighMotion).length ≤ 10 := by
  obtain ⟨hl1, hc1⟩ := hs (lowBucket clips) 10 (by rw [hlow]; norm_num)
  obtain ⟨hl2, hc2⟩ := hs (medBucket clips) 10 (by rw [hmed]; norm_num)
  obtain ⟨hl3, hc3⟩ := hs (highBucket clips) 10 (by rw [hhigh]; norm_num)
  have hm1 : min ((30 : ℕ) / 3) (lowBucket clips).length = 10 := by
    rw [hlow]; norm_num
  have hm2 : min ((30 : ℕ) / 3) (medBucket clips).length = 10 := by
    rw [hmed]; norm_num
  have hm3 : min ((30 : ℕ) / 3) (highBucket clips).length = 10 := by
    rw [hhigh]; norm_num
  have hlen123 : (sample (lowBucket clips) 10 ++ sample (medBucket clips) 10 ++
      sample (highBucket clips) 10).length = 30 := by
    simp [hl1, hl2, hl3]
  have heq : smart_sample sample clips 30 =
      sample (lowBucket clips) 10 ++ sample (medBucket clips) 10 ++
        sample (highBucket clips) 10 := by
    unfold smart_sample
    dsimp only
    rw [hm1, hm2, hm3, hlen123]
    simp
  have hmemlow : ∀ x ∈ sample (lowBucket clips) 10, isLowMotion x = true := by
    intro x hx
    have hp : 0 < (lowBucket clips).count x :=
      lt_of_lt_of_le (List.count_pos_iff.mpr hx) (hc1 x)
    exact (List.mem_filter.mp (List.count_pos_iff.mp hp)).2
  have hmemmed : ∀ x ∈ sample (medBucket clips) 10, isMedMotion x = true := by
    intro x hx
    have hp : 0 < (medBucket clips).count x :=
      lt_of_lt_of_le (List.count_pos_iff.mpr hx) (hc2 x)
    exact (List.mem_filter.mp (List.count_pos_iff.mp hp)).2
  have hmemhigh : ∀ x ∈ sample (highBucket clips) 10, isHighMotion x = true := by
    intro x hx
    have hp : 0 < (highBucket clips).count x :=
      lt_of_lt_of_le (List.count_pos_iff.mpr hx) (hc3 x)
    exact (List.mem_filter.mp (List.count_pos_iff.mp hp)).2
  have hlow_not_med : ∀ x : Clip, isLowMotion x = true → isMedMotion x = false := by
    intro x h
    simp [isMedMotion, h]
  have hmed_not_low : ∀ x : Clip, isMedMotion x = true → isLowMotion x = false := by
    intro x h
    simp only [isMedMotion, Bool.and_eq_true, Bool.not_eq_true'] at h
    exact h.1
  have hmed_not_high : ∀ x : Clip, isMedMotion x = true → isHighMotion x = false := by
    intro x h
    simp only [isMedMotion, Bool.and_eq_true, Bool.not_eq_true'] at h
    exact h.2
  have hhigh_not_low : ∀ x : Clip, isHighMotion x = true → isLowMotion x = false := by
    intro x h
    simp only [isHighMotion, decide_eq_true_eq] at h
    simp [isLowMotion, h]
  have hlow_not_high : ∀ x : Clip, isLowMotion x = true → isHighMotion x = false := by
    intro x h
    simp only [isLowMotion, decide_eq_true_eq] at h
    simp [isHighMotion, h]
  have hnd1 : (sample (lowBucket clips) 10).Nodup := by
    rw [List.nodup_iff_count_le_one]
    intro x
    exact le_trans (hc1 x)
      (List.nodup_iff_count_le_one.mp (hnd.filter _) x)
  have hnd2 : (sample (medBucket clips) 10).Nodup := by
    rw [List.nodup_iff_count_le_one]
    intro x
    exact le_trans (hc2 x)
      (List.nodup_iff_count_le_one.mp (hnd.filter _) x)
  have hnd3 : (sample (highBucket clips) 10).Nodup := by
    rw [List.nodup_iff_count_le_one]
    intro x
    exact le_trans (hc3 x)
      (List.nodup_iff_count_le_one.mp (hnd.filter _) x)
  have hdis12 : (sample (lowBucket clips) 10).Disjoint (sample (medBucket clips) 10) := by
    intro x hx1 hx2
    have h1 := hmemlow x hx1
    have h2 := hmemmed x hx2
    rw [hmed_not_low x h2] at h1
    exact Bool.false_ne_true h1
  have hdis13 : (sample (lowBucket clips) 10).Disjoint (sample (highBucket clips) 10) := by
    intro x hx1 hx3
    have h1 := hmemlow x hx1
    have h3 := hmemhigh x hx3
    rw [hhigh_not_low x h3] at h1
    exact Bool.false_ne_true h1
  have hdis23 : (sample (medBucket clips) 10).Disjoint (sample (highBucket clips) 10) := by
    intro x hx2 hx3
    have h2 := hmemmed x hx2
    have h3 := hmemhigh x hx3
    rw [hmed_not_high x h2] at h3
    exact Bool.false_ne_true h3
  have hndall : (sample (lowBucket clips) 10 ++ sample (medBucket clips) 10 ++
      sample (highBucket clips) 10).Nodup := by
    refine List.Nodup.append (List.Nodup.append hnd1 hnd2 hdis12) hnd3 ?_
    intro x hx hx3
    rcases List.mem_append.mp hx with hx1 | hx2
    · exact hdis13 hx1 hx3
    · exact hdis23 hx2 hx3
  have hf_of_none : ∀ (p : Clip → Bool) (l : List Clip),
      (∀ x ∈ l, p x = false) → l.filter p = [] := by
    intro p l h
    refine List.filter_eq_nil_iff.mpr ?_
    intro a ha
    rw [h a ha]
    exact Bool.false_ne_true
  have f2low : (sample (medBucket clips) 10).filter isLowMotion = [] :=
    hf_of_none _ _ (fun x hx => hmed_not_low x (hmemmed x hx))
  have f3low : (sample (highBucket clips) 10).filter isLowMotion = [] :=
    hf_of_none _ _ (fun x hx => hhigh_not_low x (hmemhigh x hx))
  have f1med : (sample (lowBucket clips) 10).filter isMedMotion = [] :=
    hf_of_none _ _ (fun x hx => hlow_not_med x (hmemlow x hx))
  have f3med : (sample (highBucket clips) 10).filter isMedMotion = [] :=
    hf_of_none _ _ (fun x hx => by
      have h3 := hmemhigh x hx
      simp [isMedMotion, h3])
  have f1high : (sample (lowBucket clips) 10).filter isHighMotion = [] :=
    hf_of_none _ _ (fun x hx => hlow_not_high x (hmemlow x hx))
  have f2high : (sample (medBucket clips) 10).filter isHighMotion = [] :=
    hf_of_none _ _ (fun x hx => hmed_not_high x (hmemmed x hx))
  refine ⟨by rw [heq]; exact hlen123, by rw [heq]; exact hndall, ?_, ?_, ?_⟩
  · rw [heq, List.filter_append, List.filter_append, f2low, f3low]
    simp only [List.append_nil]
    exact le_trans (List.length_filter_le _ _) (le_of_eq hl1)
  · rw [heq, List.filter_append, List.filter_append, f1med, f3med]
    simp only [List.nil_append, List.append_nil]
    exact le_trans (List.length_filter_le _ _) (le_of_eq hl2)
  · rw [heq, List.filter_append, List.filter_append, f1high, f2high]
    simp only [List.nil_append, List.append_nil]
    exact le_trans (List.length_filter_le _ _) (le_of_eq hl3)

/-- A concrete draw satisfying the `random.sample` contract: take the
first `k` elements. -/
def takeSampler : List Clip → ℕ → List Clip := fun l k => l.take k

theorem takeSampler_isSampler : IsSampler takeSampler := by
  intro l k hk
  constructor
  · simp only [takeSampler, List.length_take]
    omega
  · intro x
    exact List.Sublist.count_le (List.take_sublist k l) x

/-- A pool clip with the given index and motion intensity. -/
def mkPoolClip (m : String) (i : ℕ) : Clip :=
  { filename := "clip" ++ toString i ++ ".mp4", motion_intensity := m }

/-- A pool of 100 distinct items split 40/30/30 across low/medium/high
motion intensity. -/
def pool100 : List Clip :=
  ((List.range 40).map (mkPoolClip "low")) ++
    ((List.range 30).map (fun i => mkPoolClip "medium" (40 + i))) ++
    ((List.range 30).map (fun i => mkPoolClip "high" (70 + i)))

/-- C9 witness: the sampler contract and the pool shape evaluated on the
concrete 40/30/30 pool with the take-first draw. -/
theorem smart_sample_spec_witness :
    (smart_sample takeSampler pool100 30).length = 30 ∧
    (smart_sample takeSampler pool100 30).Nodup ∧
    ((smart_sample takeSampler pool100 30).filter isLowMotion).length ≤ 10 ∧
    ((smart_sample takeSampler pool100 30).filter isMedMotion).length ≤ 10 ∧
    ((smart_sample takeSampler pool100 30).filter isHighMotion).length ≤ 10 :=
  smart_sample_spec takeSampler takeSampler_isSampler pool100
    (by decide) (by decide) (by decide) (by decide) (by decide)

end VideoGen
